import Mathlib

/-!
Verification development for the aliciadata-chat repository.

The four Python modules are shallowly embedded as pure Lean functions:

* `database.py`   — a `DBState` holds the `chats` table (list of rows) and a
  store-assigned sequence counter used for both `id` and `created_at`.
  Store faults (connectivity failures raised by psycopg2) are modelled by an
  explicit `fault : Bool` oracle on each operation; the raw query raises
  (`Except.error`) exactly when the oracle is set, and each public function
  wraps its raw query in the same try/except structure as the source.
* `chat_service.py` — `format_message_history` mirrors the row-to-API
  conversion loop; the remote Anthropic stream is modelled by an oracle pair
  `(apiChunks, apiError)`: the chunks the remote service delivers before the
  stream either ends normally (`apiError = none`) or raises a transport error
  (`apiError = some e`).  `stream_message` converts that into the generator's
  visible chunk sequence exactly as the source's try/except does.
* `prompt_loader.py` — the template-file cache is modelled by an
  `Option String` (the file's content, or `none` when `load_template` fails);
  pystache rendering is modelled from the spec as deterministic placeholder
  substitution, with a `renderFault` oracle for the library raising
  (`pystache.render` on the empty-string template never raises and returns
  the empty string, i.e. `renderFault = false` is the real behaviour there).
* `main.py` — `chat_function` is embedded as a function producing the ordered
  trace of its observable events (store appends, the history read, each
  yielded transcript snapshot), the resulting store state and the transcript
  it returns.  The two `datetime.now()` calls of a turn are modelled by a
  clock value `clock` and `clock + 1`.
-/

namespace AliciaChat

/-- A row of the `chats` table: columns id, timestamp, session_uuid,
message_type, contents, created_at (schema used by `database.py`).
`id` and `created_at` are store-assigned; timestamps are modelled as `Nat`. -/
structure ChatRow where
  id : Nat
  timestamp : Nat
  sessionUuid : String
  messageType : String
  contents : String
  createdAt : Nat
deriving DecidableEq, Repr

/-- A row of the `documents` table: columns name (unique key), resume, jd. -/
structure Document where
  name : String
  resume : String
  jd : String
deriving DecidableEq, Repr

/-- The persistent store: the `chats` table plus the store-assigned sequence
counter used for the `id` and `created_at` columns of the next insert. -/
structure DBState where
  chats : List ChatRow
  nextSeq : Nat
deriving DecidableEq, Repr

/-- One message in Anthropic API format, as built by
`chat_service.format_message_history`. -/
structure ApiMessage where
  role : String
  content : String
deriving DecidableEq, Repr

/-- `database.save_message`, successful branch: the parameterized INSERT into
`chats`, with `id` and `created_at` assigned by the store. -/
def insertChat (db : DBState) (sess mt c : String) (ts : Nat) : DBState :=
  { chats := db.chats ++ [⟨db.nextSeq, ts, sess, mt, c, db.nextSeq⟩],
    nextSeq := db.nextSeq + 1 }

/-- The raw INSERT executed by `database.save_message`; raises
(`Except.error`) exactly when the store-fault oracle is set. -/
def chatsInsert (db : DBState) (fault : Bool) (sess mt c : String) (ts : Nat) :
    Except String DBState :=
  if fault then Except.error "connection failure"
  else Except.ok (insertChat db sess mt c ts)

/-- `database.save_message`: wraps the raw insert in try/except, returning
`true` on success and `false` on any failure (never raising to the caller). -/
def save_message (db : DBState) (fault : Bool) (sess mt c : String) (ts : Nat) :
    DBState × Bool :=
  match chatsInsert db fault sess mt c ts with
  | Except.ok db2 => (db2, true)
  | Except.error _ => (db, false)

/-- The ORDER BY key of `database.get_session_history`:
`ORDER BY timestamp ASC, created_at ASC` (lexicographic, non-strict). -/
def rowKeyLE (a b : ChatRow) : Prop :=
  a.timestamp < b.timestamp ∨ (a.timestamp = b.timestamp ∧ a.createdAt ≤ b.createdAt)

instance : DecidableRel rowKeyLE := fun a b => by
  unfold rowKeyLE; exact inferInstance

instance : IsTotal ChatRow rowKeyLE :=
  ⟨by intro a b; unfold rowKeyLE; omega⟩

instance : IsTrans ChatRow rowKeyLE :=
  ⟨by intro a b c hab hbc; unfold rowKeyLE at hab hbc ⊢; omega⟩

/-- `database.get_session_history`: SELECT the session's rows ordered by
(timestamp, created_at) ascending; returns `none` if any error occurs
(the except branch of the source). -/
def get_session_history (db : DBState) (fault : Bool) (sess : String) :
    Option (List ChatRow) :=
  if fault then none
  else some (List.insertionSort rowKeyLE
    (db.chats.filter (fun r => r.sessionUuid == sess)))

/-- The raw SELECT executed by `database.get_document_by_name`; raises
exactly when the store-fault oracle is set, otherwise returns the first row
whose `name` matches (the unique key). -/
def documentsQuery (docs : List Document) (fault : Bool) (name : String) :
    Except String (Option (String × String)) :=
  if fault then Except.error "connection failure"
  else Except.ok ((docs.find? (fun d => d.name == name)).map
    (fun d => (d.resume, d.jd)))

/-- `database.get_document_by_name`: wraps the raw query in try/except,
collapsing both "no such row" and any raised error to `none`. -/
def get_document_by_name (docs : List Document) (fault : Bool) (name : String) :
    Option (String × String) :=
  match documentsQuery docs fault name with
  | Except.ok r => r
  | Except.error _ => none

/-- Store well-formedness: the store-assigned `created_at` values are
strictly increasing in insertion order and bounded by the next sequence
value.  This holds of the empty store and every `save_message` preserves
it. -/
def dbWF (db : DBState) : Prop :=
  db.chats.Pairwise (fun a b => a.createdAt < b.createdAt)
    ∧ ∀ r ∈ db.chats, r.createdAt < db.nextSeq

instance (db : DBState) : Decidable (dbWF db) := by
  unfold dbWF; exact inferInstance

/-- A sequence of successful `save_message` appends to one session; each item
is (message_type, contents, timestamp). -/
def saveAll (db : DBState) (sess : String)
    (items : List (String × String × Nat)) : DBState :=
  items.foldl (fun d it => (save_message d false sess it.1 it.2.1 it.2.2).1) db

/-- `chat_service.format_message_history`: convert database rows to Anthropic
API format, skipping system rows (and anything that is not user/assistant). -/
def format_message_history (dbMessages : List ChatRow) : List ApiMessage :=
  match dbMessages with
  | [] => []
  | msg :: rest =>
    if msg.messageType == "system" then
      format_message_history rest
    else if msg.messageType == "user" || msg.messageType == "assistant" then
      ⟨msg.messageType, msg.contents⟩ :: format_message_history rest
    else
      format_message_history rest

/-- The chunk sequence visibly yielded by `chat_service.stream_message`, given
the chunks the remote service delivered and whether the stream then ended
normally (`none`) or raised a transport/API error (`some e`): the except
branch yields exactly one extra chunk describing the error and stops. -/
def deliveredChunks (apiChunks : List String) (apiError : Option String) :
    List String :=
  match apiError with
  | none => apiChunks
  | some e => apiChunks ++ ["Error during streaming: " ++ e]

/-- `chat_service.stream_message`: the generator's yielded chunk sequence.
The remote stream's behaviour is the oracle pair `(apiChunks, apiError)`;
the `messages` and `systemPrompt` arguments are what the source passes to the
remote call and do not determine the network's answer. -/
def stream_message (messages : List ApiMessage) (systemPrompt : String)
    (apiChunks : List String) (apiError : Option String) : List String :=
  deliveredChunks apiChunks apiError

/-- Python `str.strip()`: remove leading and trailing whitespace. -/
def pyStrip (s : String) : String :=
  ⟨((s.data.dropWhile Char.isWhitespace).reverse.dropWhile
      Char.isWhitespace).reverse⟩

/-- Worker for `replaceList`; the fuel bounds the recursion depth so the
definition is structural (the caller supplies the list's length, which always
suffices since each step consumes at least one character). -/
def replaceListAux (pat rep : List Char) : Nat → List Char → List Char
  | 0, l => l
  | _, [] => []
  | fuel + 1, c :: cs =>
    if pat.isPrefixOf (c :: cs) then
      rep ++ replaceListAux pat rep fuel (cs.drop (pat.length - 1))
    else
      c :: replaceListAux pat rep fuel cs

/-- Replace every occurrence of `pat` by `rep` in a character list
(left-to-right, non-overlapping), as Python `str.replace` does. -/
def replaceList (pat rep : List Char) (l : List Char) : List Char :=
  replaceListAux pat rep l.length l

/-- `pat` occurs as a contiguous run inside the character list. -/
def containsList (pat : List Char) : List Char → Bool
  | [] => pat.isEmpty
  | _c :: cs => pat.isPrefixOf (_c :: cs) || containsList pat cs

/-- Modelled from the spec: pystache substitution of the named placeholders
`resume`, `jd`, `email` (§4.3 "Deterministic string substitution into a
template with named placeholders"); the pystache library itself is not part
of the repository. -/
def mustacheSubst (template resume jd email : String) : String :=
  ⟨replaceList "\x7b\x7bemail\x7d\x7d".data email.data
    (replaceList "\x7b\x7bjd\x7d\x7d".data jd.data
      (replaceList "\x7b\x7bresume\x7d\x7d".data resume.data template.data))⟩

/-- `pystache.render` as called by `prompt_loader.render_prompt`: performs the
substitution, or raises when the `renderFault` oracle is set.  On the empty
template the real library never raises and returns the empty string, i.e. the
faithful oracle value there is `false`. -/
def pystacheRender (renderFault : Bool) (template resume jd email : String) :
    Except String String :=
  if renderFault then Except.error "render error"
  else Except.ok (mustacheSubst template resume jd email)

/-- The hardcoded fallback prompt of `prompt_loader.render_prompt`'s except
branch, embedding resume and jd verbatim. -/
def fallbackPrompt (resume jd : String) : String :=
  "You are a helpful career advisor assistant reviewing a resume against a job description.\n\nRESUME:\n"
    ++ resume ++ "\n\nJOB DESCRIPTION:\n" ++ jd
    ++ "\n\nPlease provide thoughtful, specific feedback to help the hiring manager evaluate fit for this position."

/-- `prompt_loader.render_prompt`: render the template, falling back to the
hardcoded prompt only if the rendering call raises. -/
def render_prompt (renderFault : Bool) (template resume jd email : String) :
    String :=
  match pystacheRender renderFault template resume jd email with
  | Except.ok r => r
  | Except.error _ => fallbackPrompt resume jd

/-- `prompt_loader.get_system_prompt`: load the template (the cache is
`templateCache`, `none` when `load_template` failed) and render it; returns
`none` exactly when template loading fails. -/
def get_system_prompt (templateCache : Option String) (renderFault : Bool)
    (resume jd email : String) : Option String :=
  match templateCache with
  | none => none
  | some t => some (render_prompt renderFault t resume jd email)

/-- The system prompt `main.chat_function` passes to the model (lines
157-162): `get_system_prompt`, with `render_prompt("", resume, jd)` as the
fallback when template loading failed. -/
def systemPromptUsed (templateCache : Option String) (renderFault : Bool)
    (resume jd email : String) : String :=
  match get_system_prompt templateCache renderFault resume jd email with
  | some p => p
  | none => render_prompt renderFault "" resume jd email

/-- The API message list `main.chat_function` builds (lines 151-155):
`format_message_history(db_messages or [])`, where a failed history read is
`None`. -/
def apiContextForTurn (db : DBState) (faultHistory : Bool) (sess : String) :
    List ApiMessage :=
  format_message_history ((get_session_history db faultHistory sess).getD [])

/-- Observable events of one `chat_function` turn, in execution order:
store appends (with role, content, timestamp and the returned success flag),
the session-history read, and each yielded transcript snapshot.  A transcript
entry is a Gradio `[user_msg, bot_msg]` pair with an initially empty bot
slot. -/
inductive Event where
  | append (sessionUuid messageType contents : String) (timestamp : Nat)
      (ok : Bool) : Event
  | loadHistory : Event
  | yieldSnapshot (transcript : List (String × Option String)) : Event
deriving DecidableEq, Repr

/-- The transcript snapshots yielded inside the streaming loop of
`main.chat_function`: after each chunk, the prior turns (`base`) unchanged
and the last turn's assistant slot set to the accumulation so far. -/
def chunkSnapshots (base : List (String × Option String)) (message acc : String) :
    List String → List (List (String × Option String))
  | [] => []
  | c :: cs =>
    (base ++ [(message, some (acc ++ c))]) :: chunkSnapshots base message (acc ++ c) cs

/-- The result of one `chat_function` turn: its event trace, the final store
state, and the transcript value it returns (its second output, the cleared
input box, is the constant empty string and is omitted). -/
structure TurnOutput where
  events : List Event
  db : DBState
  transcript : List (String × Option String)
deriving DecidableEq, Repr

/-- The event is a store append whose role (message_type) is `role`. -/
def isRoleAppend (role : String) : Event → Bool
  | Event.append _ mt _ _ _ => mt == role
  | _ => false

/-- The event is a yielded transcript snapshot. -/
def isYield : Event → Bool
  | Event.yieldSnapshot _ => true
  | _ => false

/-- `main.chat_function`: one chat turn.  Oracles: `clock` is the value of the
first `datetime.now()` call (the second is `clock + 1`); `faultUserSave`,
`faultHistory`, `faultAssistantSave` are the store-fault oracles of the three
database operations in execution order; `templateCache`/`renderFault` as in
the prompt loader; `(apiChunks, apiError)` the remote stream oracle. -/
def chat_function (db : DBState) (clock : Nat)
    (faultUserSave faultHistory faultAssistantSave : Bool)
    (templateCache : Option String) (renderFault : Bool)
    (apiChunks : List String) (apiError : Option String)
    (message : String) (history : List (String × Option String))
    (sess resume jd email : String) : TurnOutput :=
  if pyStrip message = "" then ⟨[], db, history⟩
  else
    let timestamp := clock
    let userSave := save_message db faultUserSave sess "user" message timestamp
    let db1 := userSave.1
    let apiMessages := apiContextForTurn db1 faultHistory sess
    let systemPrompt := systemPromptUsed templateCache renderFault resume jd email
    let history1 := history ++ [(message, none)]
    let chunks := stream_message apiMessages systemPrompt apiChunks apiError
    let fullResponse := String.join chunks
    let assistantSave :=
      save_message db1 faultAssistantSave sess "assistant" fullResponse (clock + 1)
    let finalTranscript :=
      match chunks with
      | [] => history1
      | _ => history ++ [(message, some fullResponse)]
    ⟨Event.append sess "user" message timestamp userSave.2
        :: Event.loadHistory
        :: Event.yieldSnapshot history1
        :: ((chunkSnapshots history message "" chunks).map Event.yieldSnapshot
            ++ [Event.append sess "assistant" fullResponse (clock + 1)
                  assistantSave.2]),
      assistantSave.1, finalTranscript⟩

/-- `pat` occurs as a contiguous substring of `s`. -/
def strContains (s pat : String) : Bool := containsList pat.data s.data

/-- The four outputs of `main.load_document_on_startup` that the claims are
about: the error message, whether chat is enabled, and the resume/jd shown. -/
structure LoadResult where
  errorMessage : String
  chatEnabled : Bool
  resume : String
  jd : String
deriving DecidableEq, Repr

/-- A single-quote character as a string (used in the source's user-facing
messages). -/
def squote : String := String.singleton (Char.ofNat 39)

/-- The "No document found" message of `main.load_document_on_startup`. -/
def noDocumentFoundMsg (q : String) : String :=
  "**Error:** No document found with name " ++ squote ++ q ++ squote

/-- `main.load_document_on_startup` (the session uuid, being random, is
omitted).  The try/except around the document lookup is modelled by matching
on the lookup's `Except` outcome; since `get_document_by_name` catches
internally and is total, that outcome is always `Except.ok`. -/
def load_document_on_startup (appInit : Bool) (initErr : String)
    (docs : List Document) (fault : Bool) (qRaw : String) : LoadResult :=
  if !appInit then ⟨"**Error:** " ++ initErr, false, "", ""⟩
  else
    let q := pyStrip qRaw
    if q = "" then
      ⟨"**Error:** " ++ squote ++ "q" ++ squote
        ++ " parameter must be specified in the URL", false, "", ""⟩
    else
      match (Except.ok (get_document_by_name docs fault q) :
          Except String (Option (String × String))) with
      | Except.error e =>
        ⟨"**Error:** Database error while retrieving document: " ++ e,
          false, "", ""⟩
      | Except.ok none => ⟨noDocumentFoundMsg q, false, "", ""⟩
      | Except.ok (some (r, j)) => ⟨"", true, r, j⟩

/-- C4: for every message that is empty or consists only of whitespace,
submitting it is a no-op: no store append is performed (empty event trace,
store unchanged), the transcript is returned unchanged, and no error is
surfaced. -/
theorem c4_empty_message_noop (db : DBState) (clock : Nat)
    (f1 f2 f3 : Bool) (tc : Option String) (rf : Bool)
    (apiChunks : List String) (apiError : Option String)
    (message : String) (history : List (String × Option String))
    (sess resume jd email : String)
    (h : pyStrip message = "") :
    chat_function db clock f1 f2 f3 tc rf apiChunks apiError message history
      sess resume jd email = ⟨[], db, history⟩ := by
  simp [chat_function, h]

theorem c4_empty_message_noop_witness :
    (pyStrip "   " = "")
    ∧ chat_function ⟨[], 0⟩ 0 false false false none false [] none "   "
        [("hi", some "there")] "s" "R" "J" "E"
        = ⟨[], ⟨[], 0⟩, [("hi", some "there")]⟩ :=
  ⟨by decide,
    c4_empty_message_noop ⟨[], 0⟩ 0 false false false none false [] none "   "
      [("hi", some "there")] "s" "R" "J" "E" (by decide)⟩

/-- C5: for every stored history content, the message list passed to the
model client contains no message whose role is `system`, and every message in
it has role `user` or `assistant`. -/
theorem c5_no_system_in_model_context (dbMessages : List ChatRow) :
    (format_message_history dbMessages).filter (fun m => m.role == "system") = []
    ∧ (format_message_history dbMessages).all
        (fun m => m.role == "user" || m.role == "assistant") = true := by
  induction dbMessages with
  | nil => simp [format_message_history]
  | cons msg rest ih =>
    by_cases hsys : msg.messageType == "system"
    · simpa [format_message_history, hsys] using ih
    · have hne : (msg.messageType == "system") = false := by
        simpa using hsys
      by_cases hua : (msg.messageType == "user" || msg.messageType == "assistant") = true
      · have hns : (msg.messageType == "system") = false := hne
        constructor
        · simpa [format_message_history, hne, hua, List.filter] using ih.1
        · simpa [format_message_history, hne, hua, List.all] using ih.2
      · have hua2 : (msg.messageType == "user" || msg.messageType == "assistant") = false := by
          simpa using hua
        simpa [format_message_history, hne, hua2] using ih

/-- C8: the message-append operation is a total function into a boolean
result (it never raises into its caller): it returns `true` exactly when the
insert succeeded — in which case the row is durably appended — and `false` on
any failure, in which case the store is unchanged. -/
theorem c8_save_message_total_boolean (db : DBState) (fault : Bool)
    (sess mt c : String) (ts : Nat) :
    (save_message db fault sess mt c ts).2 = !fault
    ∧ (save_message db fault sess mt c ts).1
        = (if fault then db else insertChat db sess mt c ts) := by
  cases fault <;> simp [save_message, chatsInsert]

/-- C9: when the session-history read fails, the orchestrator's model context
is the empty message list — exactly what a successfully loaded empty history
produces — so the turn proceeds instead of aborting and the failure is
indistinguishable from an empty history. -/
theorem c9_history_failure_as_empty (db : DBState) (sess : String) :
    apiContextForTurn db true sess = apiContextForTurn ⟨[], 0⟩ false sess
    ∧ apiContextForTurn db true sess = [] := by
  constructor <;>
    simp [apiContextForTurn, get_session_history, format_message_history]

theorem string_data_append (a b : String) : (a ++ b).data = a.data ++ b.data := by
  cases a; cases b; rfl

theorem string_join_cons (c : String) (cs : List String) :
    String.join (c :: cs) = c ++ String.join cs := by
  apply String.ext
  simp [string_data_append]

theorem string_join_concat (ps : List String) (x : String) :
    String.join (ps ++ [x]) = String.join ps ++ x := by
  apply String.ext
  simp [string_data_append]

theorem chunkSnapshots_length (base : List (String × Option String))
    (message : String) :
    ∀ (cs : List String) (acc : String),
      (chunkSnapshots base message acc cs).length = cs.length
  | [], _ => rfl
  | c :: cs, acc => by
    simp [chunkSnapshots, chunkSnapshots_length base message cs (acc ++ c)]

theorem chunkSnapshots_getElem (base : List (String × Option String))
    (message : String) :
    ∀ (cs : List String) (acc : String) (i : Nat), i < cs.length →
      (chunkSnapshots base message acc cs)[i]?
        = some (base ++ [(message, some (acc ++ String.join (cs.take (i + 1))))])
  | [], _, i, h => by simp at h
  | c :: cs, acc, 0, _ => by
    have hnil : String.join ([] : List String) = "" := rfl
    simp [chunkSnapshots, string_join_cons, hnil, String.append_empty]
  | c :: cs, acc, i + 1, h => by
    have ih := chunkSnapshots_getElem base message cs (acc ++ c) i (by simpa using h)
    simp [chunkSnapshots, ih, string_join_cons, String.append_assoc]

theorem filter_roleAppend_map_yield (role : String)
    (l : List (List (String × Option String))) :
    (l.map Event.yieldSnapshot).filter (isRoleAppend role) = [] := by
  induction l with
  | nil => rfl
  | cons x xs ih => simp [isRoleAppend, ih]

theorem filter_isYield_map_yield (l : List (List (String × Option String))) :
    (l.map Event.yieldSnapshot).filter isYield = l.map Event.yieldSnapshot := by
  induction l with
  | nil => rfl
  | cons x xs ih => simp [isYield, ih]

theorem getLast?_cons3_append {α : Type} (a b c : α) (S : List α) (B : α) :
    (a :: b :: c :: (S ++ [B])).getLast? = some B := by
  rw [show a :: b :: c :: (S ++ [B]) = (a :: b :: c :: S) ++ [B] by simp,
    List.getLast?_concat]

theorem chat_function_events_eq (db : DBState) (clock : Nat)
    (f1 f2 f3 : Bool) (tc : Option String) (rf : Bool)
    (apiChunks : List String) (apiError : Option String)
    (message : String) (history : List (String × Option String))
    (sess resume jd email : String)
    (h : ¬ pyStrip message = "") :
    (chat_function db clock f1 f2 f3 tc rf apiChunks apiError message history
        sess resume jd email).events
      = Event.append sess "user" message clock
          (save_message db f1 sess "user" message clock).2
        :: Event.loadHistory
        :: Event.yieldSnapshot (history ++ [(message, none)])
        :: ((chunkSnapshots history message ""
              (deliveredChunks apiChunks apiError)).map Event.yieldSnapshot
            ++ [Event.append sess "assistant"
                  (String.join (deliveredChunks apiChunks apiError)) (clock + 1)
                  (save_message (save_message db f1 sess "user" message clock).1
                    f3 sess "assistant"
                    (String.join (deliveredChunks apiChunks apiError))
                    (clock + 1)).2]) := by
  simp [chat_function, h, stream_message]

/-- C1: for every non-whitespace-only user message, the turn's event trace
starts with exactly one user append whose content is the submitted message
(followed immediately by the history read, so the append precedes it), emits
one or more transcript snapshots, and ends — after the stream — with exactly
one assistant append whose content is the full accumulated response text,
saved at the later clock value `clock + 1`. -/
theorem c1_turn_persistence_protocol (db : DBState) (clock : Nat)
    (f1 f2 f3 : Bool) (tc : Option String) (rf : Bool)
    (apiChunks : List String) (apiError : Option String)
    (message : String) (history : List (String × Option String))
    (sess resume jd email : String) (out : TurnOutput)
    (hout : out = chat_function db clock f1 f2 f3 tc rf apiChunks apiError
      message history sess resume jd email)
    (h : ¬ pyStrip message = "") :
    ∃ okU okA,
      out.events.take 2
          = [Event.append sess "user" message clock okU, Event.loadHistory]
      ∧ out.events.getLast? = some (Event.append sess "assistant"
          (String.join (deliveredChunks apiChunks apiError)) (clock + 1) okA)
      ∧ (out.events.filter (isRoleAppend "user")).length = 1
      ∧ (out.events.filter (isRoleAppend "assistant")).length = 1
      ∧ (out.events.filter isYield).length
          = (deliveredChunks apiChunks apiError).length + 1 := by
  subst hout
  rw [chat_function_events_eq db clock f1 f2 f3 tc rf apiChunks apiError
    message history sess resume jd email h]
  refine ⟨(save_message db f1 sess "user" message clock).2,
    (save_message (save_message db f1 sess "user" message clock).1 f3 sess
      "assistant" (String.join (deliveredChunks apiChunks apiError))
      (clock + 1)).2, rfl, getLast?_cons3_append _ _ _ _ _, ?_, ?_, ?_⟩
  · simp +decide [List.filter_append, filter_roleAppend_map_yield, isRoleAppend]
  · simp +decide [List.filter_append, filter_roleAppend_map_yield, isRoleAppend]
  · simp [List.filter_append, filter_isYield_map_yield, isYield,
      chunkSnapshots_length]

/-- C7: for each chunk delivered by the model stream, exactly one transcript
snapshot is emitted (the yields are one initial snapshot plus one per chunk,
never batched), and the snapshot emitted for chunk `i` keeps all prior turns
unchanged and sets the last turn's assistant slot to the concatenation of the
chunks received so far. -/
theorem c7_snapshot_per_chunk (db : DBState) (clock : Nat)
    (f1 f2 f3 : Bool) (tc : Option String) (rf : Bool)
    (apiChunks : List String) (apiError : Option String)
    (message : String) (history : List (String × Option String))
    (sess resume jd email : String) (out : TurnOutput)
    (hout : out = chat_function db clock f1 f2 f3 tc rf apiChunks apiError
      message history sess resume jd email)
    (h : ¬ pyStrip message = "") (i : Nat)
    (hi : i < (deliveredChunks apiChunks apiError).length) :
    (out.events.filter isYield).length
        = (deliveredChunks apiChunks apiError).length + 1
    ∧ (out.events.filter isYield)[i + 1]?
        = some (Event.yieldSnapshot (history ++ [(message,
            some (String.join
              ((deliveredChunks apiChunks apiError).take (i + 1))))])) := by
  subst hout
  rw [chat_function_events_eq db clock f1 f2 f3 tc rf apiChunks apiError
    message history sess resume jd email h]
  constructor
  · simp [List.filter_append, filter_isYield_map_yield, isYield,
      chunkSnapshots_length]
  · have hsnap := chunkSnapshots_getElem history message
      (deliveredChunks apiChunks apiError) "" i hi
    simp [List.filter_append, filter_isYield_map_yield, isYield,
      List.getElem?_map, hsnap, String.empty_append]

/-- C2: a transport/API error raised during streaming is captured and turned
into exactly one additional visible chunk describing the error, after which
the chunk sequence ends; and the assistant message persisted for that turn is
the partial response text already emitted followed by the error text. -/
theorem c2_stream_error_captured (messages : List ApiMessage)
    (systemPrompt : String) (ps : List String) (e : String)
    (db : DBState) (clock : Nat) (f1 f2 f3 : Bool) (tc : Option String)
    (rf : Bool) (message : String) (history : List (String × Option String))
    (sess resume jd email : String) (out : TurnOutput)
    (hout : out = chat_function db clock f1 f2 f3 tc rf ps (some e) message
      history sess resume jd email)
    (h : ¬ pyStrip message = "") :
    stream_message messages systemPrompt ps (some e)
        = ps ++ ["Error during streaming: " ++ e]
    ∧ ∃ okA, out.events.getLast? = some (Event.append sess "assistant"
        (String.join ps ++ ("Error during streaming: " ++ e)) (clock + 1)
        okA) := by
  subst hout
  constructor
  · rfl
  · rw [chat_function_events_eq db clock f1 f2 f3 tc rf ps (some e)
      message history sess resume jd email h]
    refine ⟨(save_message (save_message db f1 sess "user" message clock).1 f3
      sess "assistant" (String.join (deliveredChunks ps (some e)))
      (clock + 1)).2, ?_⟩
    rw [getLast?_cons3_append]
    simp [deliveredChunks, string_join_concat]

theorem c1_turn_persistence_protocol_witness :
    (¬ pyStrip "Hello" = "")
    ∧ (∃ okU okA,
        (chat_function ⟨[], 0⟩ 0 false false false (some "T") false
            ["Hi ", "there"] none "Hello" [] "s" "R" "J" "E").events.take 2
            = [Event.append "s" "user" "Hello" 0 okU, Event.loadHistory]
        ∧ (chat_function ⟨[], 0⟩ 0 false false false (some "T") false
            ["Hi ", "there"] none "Hello" [] "s" "R" "J" "E").events.getLast?
            = some (Event.append "s" "assistant"
                (String.join (deliveredChunks ["Hi ", "there"] none)) (0 + 1)
                okA)
        ∧ ((chat_function ⟨[], 0⟩ 0 false false false (some "T") false
            ["Hi ", "there"] none "Hello" [] "s" "R" "J" "E").events.filter
              (isRoleAppend "user")).length = 1
        ∧ ((chat_function ⟨[], 0⟩ 0 false false false (some "T") false
            ["Hi ", "there"] none "Hello" [] "s" "R" "J" "E").events.filter
              (isRoleAppend "assistant")).length = 1
        ∧ ((chat_function ⟨[], 0⟩ 0 false false false (some "T") false
            ["Hi ", "there"] none "Hello" [] "s" "R" "J" "E").events.filter
              isYield).length
            = (deliveredChunks ["Hi ", "there"] none).length + 1) :=
  ⟨by decide,
    c1_turn_persistence_protocol ⟨[], 0⟩ 0 false false false (some "T") false
      ["Hi ", "there"] none "Hello" [] "s" "R" "J" "E" _ rfl (by decide)⟩

theorem c7_snapshot_per_chunk_witness :
    (¬ pyStrip "Hello" = "")
    ∧ 1 < (deliveredChunks ["Hi ", "there"] none).length
    ∧ (((chat_function ⟨[], 0⟩ 0 false false false (some "T") false
          ["Hi ", "there"] none "Hello" [] "s" "R" "J" "E").events.filter
            isYield).length = (deliveredChunks ["Hi ", "there"] none).length + 1
      ∧ ((chat_function ⟨[], 0⟩ 0 false false false (some "T") false
          ["Hi ", "there"] none "Hello" [] "s" "R" "J" "E").events.filter
            isYield)[1 + 1]?
          = some (Event.yieldSnapshot ([] ++ [("Hello",
              some (String.join ((deliveredChunks ["Hi ", "there"] none).take
                (1 + 1))))]))) :=
  ⟨by decide, by decide,
    c7_snapshot_per_chunk ⟨[], 0⟩ 0 false false false (some "T") false
      ["Hi ", "there"] none "Hello" [] "s" "R" "J" "E" _ rfl (by decide) 1
      (by decide)⟩

theorem c2_stream_error_captured_witness :
    (¬ pyStrip "Hi" = "")
    ∧ (stream_message [] "sys" ["Par", "tial "] (some "boom")
          = ["Par", "tial "] ++ ["Error during streaming: " ++ "boom"]
      ∧ ∃ okA, (chat_function ⟨[], 0⟩ 0 false false false (some "T") false
            ["Par", "tial "] (some "boom") "Hi" [] "s" "R" "J"
            "E").events.getLast?
          = some (Event.append "s" "assistant"
              (String.join ["Par", "tial "]
                ++ ("Error during streaming: " ++ "boom"))
              (0 + 1) okA)) :=
  ⟨by decide,
    c2_stream_error_captured [] "sys" ["Par", "tial "] "boom" ⟨[], 0⟩ 0 false
      false false (some "T") false "Hi" [] "s" "R" "J" "E" _ rfl (by decide)⟩

/-- C3 fails on the code: when template loading fails, `chat_function` uses
`render_prompt("", resume, jd)`, and rendering the empty template succeeds
with the empty string, so the system prompt is `""` and contains neither the
resume nor the jd — while the hardcoded fallback the source intended for this
case does contain both verbatim. -/
theorem c3_template_load_failure_prompt_lacks_documents :
    systemPromptUsed none false "R1" "J1" "advisor@example.com" = ""
    ∧ strContains (systemPromptUsed none false "R1" "J1" "advisor@example.com")
        "R1" = false
    ∧ strContains (systemPromptUsed none false "R1" "J1" "advisor@example.com")
        "J1" = false
    ∧ strContains (fallbackPrompt "R1" "J1") "R1" = true
    ∧ strContains (fallbackPrompt "R1" "J1") "J1" = true := by
  refine ⟨by decide, by decide, by decide, by decide, by decide⟩

theorem saveAll_cons (db : DBState) (sess : String) (it : String × String × Nat)
    (items : List (String × String × Nat)) :
    saveAll db sess (it :: items)
      = saveAll (insertChat db sess it.1 it.2.1 it.2.2) sess items := rfl

theorem dbWF_insertChat (db : DBState) (sess mt c : String) (ts : Nat)
    (h : dbWF db) : dbWF (insertChat db sess mt c ts) := by
  obtain ⟨hpw, hbound⟩ := h
  constructor
  · rw [insertChat]
    rw [List.pairwise_append]
    refine ⟨hpw, List.pairwise_singleton _ _, ?_⟩
    intro a ha b hb
    simp only [List.mem_singleton] at hb
    subst hb
    exact hbound a ha
  · intro r hr
    simp only [insertChat, List.mem_append, List.mem_singleton] at hr
    rcases hr with hr | hr
    · exact Nat.lt_trans (hbound r hr) (Nat.lt_succ_self _)
    · subst hr
      exact Nat.lt_succ_self _

theorem dbWF_saveAll (sess : String) :
    ∀ (items : List (String × String × Nat)) (db : DBState), dbWF db →
      dbWF (saveAll db sess items)
  | [], _, h => h
  | it :: items, db, h => by
    rw [saveAll_cons]
    exact dbWF_saveAll sess items _ (dbWF_insertChat db sess it.1 it.2.1 it.2.2 h)

theorem filter_saveAll_length (sess : String) :
    ∀ (items : List (String × String × Nat)) (db : DBState),
      ((saveAll db sess items).chats.filter
          (fun r => r.sessionUuid == sess)).length
        = (db.chats.filter (fun r => r.sessionUuid == sess)).length
            + items.length
  | [], db => by simp [saveAll]
  | it :: items, db => by
    rw [saveAll_cons, filter_saveAll_length sess items]
    simp [insertChat, List.filter_append]
    omega

/-- C6: starting from a well-formed store holding no rows for the session,
after N successful appends to that session the ordered history read returns
exactly N messages, pairwise strictly increasing in the
(timestamp, createdAt) key — i.e. sorted ascending and totally ordered by
that key. -/
theorem c6_load_ordered_after_appends (db : DBState) (sess : String)
    (items : List (String × String × Nat))
    (hwf : dbWF db)
    (hempty : db.chats.filter (fun r => r.sessionUuid == sess) = []) :
    ∃ l, get_session_history (saveAll db sess items) false sess = some l
      ∧ l.length = items.length
      ∧ l.Pairwise (fun a b => a.timestamp < b.timestamp
          ∨ (a.timestamp = b.timestamp ∧ a.createdAt < b.createdAt)) := by
  refine ⟨List.insertionSort rowKeyLE
    ((saveAll db sess items).chats.filter (fun r => r.sessionUuid == sess)),
    rfl, ?_, ?_⟩
  · rw [(List.perm_insertionSort rowKeyLE _).length_eq,
      filter_saveAll_length sess items db, hempty]
    simp
  · have hsorted : List.Sorted rowKeyLE (List.insertionSort rowKeyLE
        ((saveAll db sess items).chats.filter
          (fun r => r.sessionUuid == sess))) :=
      List.sorted_insertionSort rowKeyLE _
    have hwf2 := dbWF_saveAll sess items db hwf
    have hpwF := List.Pairwise.sublist
      (List.filter_sublist (p := fun r => r.sessionUuid == sess)
        (saveAll db sess items).chats) hwf2.1
    have hneF : ((saveAll db sess items).chats.filter
        (fun r => r.sessionUuid == sess)).Pairwise
        (fun a b => a.createdAt ≠ b.createdAt) :=
      hpwF.imp (fun hlt => Nat.ne_of_lt hlt)
    have hnodupF : (((saveAll db sess items).chats.filter
        (fun r => r.sessionUuid == sess)).map
        (fun r => r.createdAt)).Nodup :=
      List.pairwise_map.mpr hneF
    have hperm := List.perm_insertionSort rowKeyLE
      ((saveAll db sess items).chats.filter (fun r => r.sessionUuid == sess))
    have hnodupS := ((hperm.map (fun r => r.createdAt)).nodup_iff).mpr hnodupF
    have hneS := List.pairwise_map.mp hnodupS
    refine (hsorted.and hneS).imp ?_
    intro a b hab
    obtain ⟨hle, hne⟩ := hab
    unfold rowKeyLE at hle
    omega

theorem c6_load_ordered_after_appends_witness :
    dbWF ⟨[], 0⟩
    ∧ (DBState.chats ⟨[], 0⟩).filter (fun r => r.sessionUuid == "s") = []
    ∧ ∃ l, get_session_history
          (saveAll ⟨[], 0⟩ "s" [("user", "Hello", 5), ("assistant", "Hi", 5)])
          false "s" = some l
        ∧ l.length = [("user", "Hello", 5), ("assistant", "Hi", 5)].length
        ∧ l.Pairwise (fun a b => a.timestamp < b.timestamp
            ∨ (a.timestamp = b.timestamp ∧ a.createdAt < b.createdAt)) :=
  ⟨by decide, by decide,
    c6_load_ordered_after_appends ⟨[], 0⟩ "s"
      [("user", "Hello", 5), ("assistant", "Hi", 5)] (by decide) (by decide)⟩

/-- C10: the document lookup catches every exception internally and returns
the not-found value: for every lookup name, an unknown name and a store
failure both produce `none` and surface the same "No document found" message
with chat disabled; moreover every page-load outcome (app initialized) is the
missing-parameter message, the no-document message, or a success, so the
caller's database-error branch is unreachable. -/
theorem c10_lookup_failures_collapse (docs : List Document) (name : String)
    (fault : Bool)
    (hq : pyStrip name = name) (hne : ¬ name = "")
    (hfind : docs.find? (fun d => d.name == name) = none) :
    get_document_by_name docs fault name = none
    ∧ load_document_on_startup true "" docs fault name
        = ⟨noDocumentFoundMsg name, false, "", ""⟩
    ∧ ∀ (docs2 : List Document) (fault2 : Bool) (q2 : String),
        load_document_on_startup true "" docs2 fault2 q2
            = ⟨"**Error:** " ++ squote ++ "q" ++ squote
                ++ " parameter must be specified in the URL", false, "", ""⟩
        ∨ load_document_on_startup true "" docs2 fault2 q2
            = ⟨noDocumentFoundMsg (pyStrip q2), false, "", ""⟩
        ∨ ∃ r j, load_document_on_startup true "" docs2 fault2 q2
            = ⟨"", true, r, j⟩ := by
  have hnone : get_document_by_name docs fault name = none := by
    cases fault <;> simp [get_document_by_name, documentsQuery, hfind]
  refine ⟨hnone, ?_, ?_⟩
  · simp [load_document_on_startup, hq, hne, hnone]
  · intro docs2 fault2 q2
    by_cases hq2 : pyStrip q2 = ""
    · left
      simp [load_document_on_startup, hq2]
    · cases hd : get_document_by_name docs2 fault2 (pyStrip q2) with
      | none =>
        right; left
        simp [load_document_on_startup, hq2, hd]
      | some rj =>
        right; right
        exact ⟨rj.1, rj.2, by simp [load_document_on_startup, hq2, hd]⟩

theorem c10_lookup_failures_collapse_witness :
    pyStrip "acme" = "acme" ∧ ¬ ("acme" : String) = ""
    ∧ [Document.mk "other" "R" "J"].find? (fun d => d.name == "acme") = none
    ∧ (get_document_by_name [Document.mk "other" "R" "J"] true "acme" = none
      ∧ load_document_on_startup true "" [Document.mk "other" "R" "J"] true
          "acme" = ⟨noDocumentFoundMsg "acme", false, "", ""⟩
      ∧ ∀ (docs2 : List Document) (fault2 : Bool) (q2 : String),
          load_document_on_startup true "" docs2 fault2 q2
              = ⟨"**Error:** " ++ squote ++ "q" ++ squote
                  ++ " parameter must be specified in the URL", false, "", ""⟩
          ∨ load_document_on_startup true "" docs2 fault2 q2
              = ⟨noDocumentFoundMsg (pyStrip q2), false, "", ""⟩
          ∨ ∃ r j, load_document_on_startup true "" docs2 fault2 q2
              = ⟨"", true, r, j⟩) :=
  ⟨by decide, by decide, by decide,
    c10_lookup_failures_collapse [Document.mk "other" "R" "J"] "acme" true
      (by decide) (by decide) (by decide)⟩

end AliciaChat
